import Mathlib

set_option maxHeartbeats 1000000

/-! Verification development for the comparative benchmark engine of the
tp-nosql repository: the benchmark runner dispatch, per-invocation timeout
handling, latency statistics, the task registry, the result comparator, the
dual-write follow generator, and the virality scoring formulas.  Python code
is shallowly embedded as executable Lean functions: latencies and prices
become exact rationals, fallible paths become Option or Except, and the two
backends are modelled as explicit list-based stores. -/

/-! ## Benchmark runner dispatch (DatabaseBenchmark.run_benchmark) -/

/-- Value of total_steps chosen by DatabaseBenchmark.run_benchmark from the
test type.  The source initialises total_steps to 0 and reassigns it only in
the three recognised branches, so an unrecognised test type leaves it at 0. -/
def run_benchmark_total_steps (test_type : String) : Nat :=
  if test_type = "all" then 6
  else if test_type = "basic" then 4
  else if test_type = "product_virality" ∨ test_type = "user_influence" ∨
      test_type = "viral_products" ∨ test_type = "recommendation_queries" then 1
  else 0

/-- Sequence of catalog operations executed by run_benchmark, in source
order.  Each listed operation corresponds to exactly one increment of
current_step in the source dispatch. -/
def run_benchmark_ops (test_type : String) : List String :=
  (if test_type = "all" ∨ test_type = "basic" then
    ["user_retrieval", "product_retrieval", "user_follows", "product_purchases"]
   else []) ++
  (if test_type = "all" ∨ test_type = "product_virality" then
    ["product_virality"] else []) ++
  (if test_type = "all" ∨ test_type = "user_influence" then
    ["user_influence"] else []) ++
  (if test_type = "all" ∨ test_type = "viral_products" then
    ["viral_products"] else []) ++
  (if test_type = "all" ∨ test_type = "recommendation_queries" then
    ["recommendation_queries"] else [])

/-- Final value of current_step after run_benchmark returns: the counter
starts at 0 and is incremented once before each executed operation; the
source never decrements it and never reassigns total_steps after the
initial dispatch. -/
def run_benchmark_final_step (test_type : String) : Nat :=
  (run_benchmark_ops test_type).foldl (fun s _ => s + 1) 0

/-- C2, counterexample: an unrecognised test type is not treated as "all".
With test type "bogus" the dispatch selects no operation at all (and leaves
total_steps at 0), whereas "all" selects a non-empty operation list. -/
theorem run_benchmark_unknown_not_all :
    run_benchmark_ops "bogus" = [] ∧ run_benchmark_ops "all" ≠ [] ∧
    run_benchmark_total_steps "bogus" = 0 := by
  decide

/-- C2, amended: a test type outside the recognised set selects zero catalog
operations and leaves total_steps at 0; the dispatch itself is total, so the
run still completes without raising, but nothing is executed and no warning
specific to the unknown type is issued. -/
theorem run_benchmark_unknown_runs_nothing (t : String)
    (h : ¬ (t = "all" ∨ t = "basic" ∨ t = "product_virality" ∨
        t = "user_influence" ∨ t = "viral_products" ∨
        t = "recommendation_queries")) :
    run_benchmark_ops t = [] ∧ run_benchmark_total_steps t = 0 ∧
    run_benchmark_final_step t = 0 := by
  push_neg at h
  obtain ⟨h1, h2, h3, h4, h5, h6⟩ := h
  refine ⟨?_, ?_, ?_⟩ <;>
    simp [run_benchmark_ops, run_benchmark_total_steps,
      run_benchmark_final_step, h1, h2, h3, h4, h5, h6]

/-- C2, witness: the amended statement applied at the concrete unknown test
type "bogus". -/
theorem run_benchmark_unknown_runs_nothing_witness :
    run_benchmark_ops "bogus" = [] ∧ run_benchmark_total_steps "bogus" = 0 ∧
    run_benchmark_final_step "bogus" = 0 :=
  run_benchmark_unknown_runs_nothing "bogus" (by decide)

/-- C10: with test type "all", total_steps is fixed at 6 by the initial
dispatch while eight operations each increment current_step once (the four
baseline operations, then product virality, user influence, viral products
and recommendation queries), so the final current_step is 8 and strictly
exceeds total_steps. -/
theorem run_benchmark_all_step_overflow :
    run_benchmark_total_steps "all" = 6 ∧
    run_benchmark_ops "all" =
      ["user_retrieval", "product_retrieval", "user_follows",
       "product_purchases", "product_virality", "user_influence",
       "viral_products", "recommendation_queries"] ∧
    run_benchmark_final_step "all" = 8 ∧
    run_benchmark_total_steps "all" < run_benchmark_final_step "all" := by
  decide

/-! ## Per-invocation timeout handling (Neo4j benchmark helpers)

The helpers _benchmark_user_influence_neo4j and
_benchmark_product_virality_neo4j wrap the driver call in asyncio.wait_for;
an asyncio.TimeoutError is re-raised as TimeoutError, but that raise happens
inside the helper's own top-level try whose handler catches every Exception
and returns the sentinel 60.0.  The calling iteration loop counts an error
only when the helper itself raises.  An invocation outcome abstracts what
the awaited driver call does. -/

/-- Outcome of one awaited Neo4j driver call: it returns after t seconds,
exceeds the asyncio.wait_for timeout, or fails with a driver error. -/
inductive QueryOutcome where
  | ok (t : ℚ)
  | timeout
  | dbError
  deriving Repr, DecidableEq

/-- Body of the helper before its top-level exception handler: a timeout is
re-raised as TimeoutError and a driver failure propagates, both modelled as
Except.error. -/
def neo4j_query_attempt (o : QueryOutcome) : Except String ℚ :=
  match o with
  | QueryOutcome.ok t => Except.ok t
  | QueryOutcome.timeout => Except.error ("TimeoutError")
  | QueryOutcome.dbError => Except.error ("Neo4jError")

/-- Model of _benchmark_user_influence_neo4j: the top-level handler catches
every exception (the re-raised TimeoutError included) and returns the
sentinel 60.0, so the helper never propagates an exception to its caller. -/
def _benchmark_user_influence_neo4j (o : QueryOutcome) : Except String ℚ :=
  match neo4j_query_attempt o with
  | Except.ok t => Except.ok t
  | Except.error _ => Except.ok 60

/-- Model of _benchmark_product_virality_neo4j, which has the same
try/except structure as the user-influence helper. -/
def _benchmark_product_virality_neo4j (o : QueryOutcome) : Except String ℚ :=
  match neo4j_query_attempt o with
  | Except.ok t => Except.ok t
  | Except.error _ => Except.ok 60

/-- One iteration of the Neo4j loop in _benchmark_user_influence: the times
list and error counter are updated from the helper call; the except branch
appends the sentinel and increments the counter, but it is reachable only
when the helper propagates an exception. -/
def user_influence_neo4j_iter (acc : List ℚ × Nat) (o : QueryOutcome) :
    List ℚ × Nat :=
  match _benchmark_user_influence_neo4j o with
  | Except.ok t => (acc.1 ++ [t], acc.2)
  | Except.error _ => (acc.1 ++ [60], acc.2 + 1)

/-- The whole Neo4j iteration loop of _benchmark_user_influence over a run
of invocation outcomes, starting from empty times and a zero error
counter. -/
def user_influence_neo4j_loop (outcomes : List QueryOutcome) :
    List ℚ × Nat :=
  outcomes.foldl user_influence_neo4j_iter ([], 0)

/-- One iteration of the Neo4j loop in _benchmark_viral_products.  There the
timeout is raised inline in the loop body (no intermediate helper), so the
loop's own except branch handles it: sentinel appended and counter
incremented. -/
def viral_products_neo4j_iter (acc : List ℚ × Nat) (o : QueryOutcome) :
    List ℚ × Nat :=
  match neo4j_query_attempt o with
  | Except.ok t => (acc.1 ++ [t], acc.2)
  | Except.error _ => (acc.1 ++ [60], acc.2 + 1)

/-- The whole Neo4j iteration loop of _benchmark_viral_products. -/
def viral_products_neo4j_loop (outcomes : List QueryOutcome) :
    List ℚ × Nat :=
  outcomes.foldl viral_products_neo4j_iter ([], 0)

/-- The Neo4j iteration loop of _benchmark_product_virality, which has the
same try/except shape as the user-influence loop: it calls the
product-virality helper and counts an error only when the helper raises. -/
def product_virality_neo4j_iter (acc : List ℚ × Nat) (o : QueryOutcome) :
    List ℚ × Nat :=
  match _benchmark_product_virality_neo4j o with
  | Except.ok t => (acc.1 ++ [t], acc.2)
  | Except.error _ => (acc.1 ++ [60], acc.2 + 1)

/-- The whole Neo4j iteration loop of _benchmark_product_virality. -/
def product_virality_neo4j_loop (outcomes : List QueryOutcome) :
    List ℚ × Nat :=
  outcomes.foldl product_virality_neo4j_iter ([], 0)

/-- Latency sample that one invocation outcome contributes to the times
list: the measured duration on success, the sentinel 60.0 otherwise. -/
def query_sample (o : QueryOutcome) : ℚ :=
  match o with
  | QueryOutcome.ok t => t
  | QueryOutcome.timeout => 60
  | QueryOutcome.dbError => 60

/-- Whether an invocation outcome is a failure (timeout or driver error). -/
def query_failed (o : QueryOutcome) : Bool :=
  match o with
  | QueryOutcome.ok _ => false
  | QueryOutcome.timeout => true
  | QueryOutcome.dbError => true

theorem user_influence_neo4j_foldl (acc : List ℚ × Nat)
    (outcomes : List QueryOutcome) :
    outcomes.foldl user_influence_neo4j_iter acc =
      (acc.1 ++ outcomes.map query_sample, acc.2) := by
  induction outcomes generalizing acc with
  | nil => simp
  | cons o rest ih =>
      cases o <;>
        simp [user_influence_neo4j_iter, _benchmark_user_influence_neo4j,
          neo4j_query_attempt, query_sample, ih]

theorem product_virality_neo4j_foldl (acc : List ℚ × Nat)
    (outcomes : List QueryOutcome) :
    outcomes.foldl product_virality_neo4j_iter acc =
      (acc.1 ++ outcomes.map query_sample, acc.2) := by
  induction outcomes generalizing acc with
  | nil => simp
  | cons o rest ih =>
      cases o <;>
        simp [product_virality_neo4j_iter, _benchmark_product_virality_neo4j,
          neo4j_query_attempt, query_sample, ih]

theorem viral_products_neo4j_foldl (acc : List ℚ × Nat)
    (outcomes : List QueryOutcome) :
    outcomes.foldl viral_products_neo4j_iter acc =
      (acc.1 ++ outcomes.map query_sample,
       acc.2 + outcomes.countP query_failed) := by
  induction outcomes generalizing acc with
  | nil => simp
  | cons o rest ih =>
      cases o <;>
        simp [viral_products_neo4j_iter, neo4j_query_attempt, query_sample,
          query_failed, ih, List.countP_cons, Nat.add_assoc, Nat.add_comm] <;>
        omega

/-- C1, counterexample: a single timed-out Neo4j user-influence invocation
records the sentinel sample 60.0 but leaves the backend error counter at 0,
not 1 — the helper converts the timeout into a normal 60.0 return before the
caller can count it. -/
theorem user_influence_timeout_not_counted :
    user_influence_neo4j_loop [QueryOutcome.timeout] = ([60], 0) ∧
    (0 : Nat) ≠ 1 := by
  constructor
  · simp [user_influence_neo4j_loop, user_influence_neo4j_iter,
      _benchmark_user_influence_neo4j, neo4j_query_attempt]
  · decide

/-- C1, amended: on a timed-out invocation the runner records a sample equal
to the sentinel 60.0 and continues through every remaining iteration (each
outcome yields exactly one sample), but in the user-influence and
product-virality benchmarks the error counter is not incremented — it stays
at 0 whatever the outcomes — because the helper's blanket exception handler
swallows the re-raised timeout; only the viral-products loop, whose timeout
is raised inline in the loop body, increments its error counter once per
failed invocation. -/
theorem neo4j_timeout_sentinel_without_error_count
    (outcomes : List QueryOutcome) :
    user_influence_neo4j_loop outcomes =
      (outcomes.map query_sample, 0) ∧
    product_virality_neo4j_loop outcomes =
      (outcomes.map query_sample, 0) ∧
    viral_products_neo4j_loop outcomes =
      (outcomes.map query_sample, outcomes.countP query_failed) ∧
    query_sample QueryOutcome.timeout = 60 := by
  refine ⟨?_, ?_, ?_, rfl⟩
  · simp [user_influence_neo4j_loop, user_influence_neo4j_foldl]
  · simp [product_virality_neo4j_loop, product_virality_neo4j_foldl]
  · simp [viral_products_neo4j_loop, viral_products_neo4j_foldl]

/-! ## Latency statistics (results storage per benchmark)

The Python statistics module raises StatisticsError on an empty sequence
(min and max raise ValueError), so each aggregate is modelled as an Option
that is none exactly on empty input.  The three results-storage sites in the
source guard emptiness differently and are modelled separately. -/

/-- Ascending sort, as the statistics module performs before taking the
median. -/
def pySorted (xs : List ℚ) : List ℚ :=
  xs.insertionSort (· ≤ ·)

/-- Model of statistics.mean: arithmetic mean, an error on empty input. -/
def pyMean (xs : List ℚ) : Option ℚ :=
  if xs.isEmpty then none else some (xs.sum / (xs.length : ℚ))

/-- Model of the builtin min on a list: an error on empty input. -/
def pyMin (xs : List ℚ) : Option ℚ :=
  (pySorted xs).head?

/-- Model of the builtin max on a list: an error on empty input. -/
def pyMax (xs : List ℚ) : Option ℚ :=
  (pySorted xs).getLast?

/-- Model of statistics.median: middle element of the sorted list when the
length is odd, mean of the two middle elements when even, an error on empty
input. -/
def pyMedian (xs : List ℚ) : Option ℚ :=
  let s := pySorted xs
  let n := s.length
  if n = 0 then none
  else if n % 2 = 1 then s[n / 2]?
  else
    match s[n / 2 - 1]?, s[n / 2]? with
    | some a, some b => some ((a + b) / 2)
    | _, _ => none

/-- Aggregate statistics stored per (backend, operation), in source field
order avg, min, max, median. -/
structure OpStats where
  avg : ℚ
  min : ℚ
  max : ℚ
  median : ℚ
  deriving Repr, DecidableEq

/-- Results storage of _benchmark_user_retrieval (and the other baseline
benchmarks): the aggregates are applied with no emptiness guard, so an empty
times list raises — modelled as none. -/
def user_retrieval_stats (times : List ℚ) : Option OpStats :=
  match pyMean times, pyMin times, pyMax times, pyMedian times with
  | some a, some b, some c, some d => some ⟨a, b, c, d⟩
  | _, _, _, _ => none

/-- Results storage of _benchmark_product_virality: each aggregate is
guarded by the truthiness of the times list and falls back to 0 on empty
input. -/
def product_virality_stats (times : List ℚ) : OpStats :=
  ⟨if times.isEmpty then 0 else (pyMean times).getD 0,
   if times.isEmpty then 0 else (pyMin times).getD 0,
   if times.isEmpty then 0 else (pyMax times).getD 0,
   if times.isEmpty then 0 else (pyMedian times).getD 0⟩

/-- Results storage of _benchmark_viral_products, which uses the same
guarded get-or-zero pattern as the product-virality site. -/
def viral_products_stats (times : List ℚ) : OpStats :=
  ⟨if times.isEmpty then 0 else (pyMean times).getD 0,
   if times.isEmpty then 0 else (pyMin times).getD 0,
   if times.isEmpty then 0 else (pyMax times).getD 0,
   if times.isEmpty then 0 else (pyMedian times).getD 0⟩

/-- Results storage of _benchmark_user_influence: before aggregating, an
empty times list is replaced by the one-element sentinel list [60.0], and
the aggregates are then applied unguarded. -/
def user_influence_stats (times : List ℚ) : OpStats :=
  let ys := if times.isEmpty then [60] else times
  ⟨(pyMean ys).getD 0, (pyMin ys).getD 0, (pyMax ys).getD 0,
   (pyMedian ys).getD 0⟩

/-- C6, counterexample: an empty sample sequence does not yield all-zero
stats at every site.  The user-influence site substitutes the sentinel list,
producing stats equal to 60 everywhere, and the baseline user-retrieval site
raises (none) instead of producing zeros. -/
theorem empty_samples_not_all_zero :
    user_influence_stats [] = ⟨60, 60, 60, 60⟩ ∧ (60 : ℚ) ≠ 0 ∧
    user_retrieval_stats [] = none := by
  refine ⟨?_, by norm_num, by rfl⟩
  simp [user_influence_stats, pyMean, pyMin, pyMax, pyMedian, pySorted]

/-- C6, amended: the behaviour on an empty sample sequence is per-site.  The
product-virality and viral-products sites yield all-zero stats without an
error; the user-influence site yields all-60 sentinel stats; the baseline
retrieval sites raise instead of computing stats. -/
theorem empty_samples_stats_by_site :
    product_virality_stats [] = ⟨0, 0, 0, 0⟩ ∧
    viral_products_stats [] = ⟨0, 0, 0, 0⟩ ∧
    user_influence_stats [] = ⟨60, 60, 60, 60⟩ ∧
    user_retrieval_stats [] = none := by
  refine ⟨by rfl, by rfl, ?_, by rfl⟩
  simp [user_influence_stats, pyMean, pyMin, pyMax, pyMedian, pySorted]

/-! ## Task registry status polling (GET /status/task_id) -/

/-- Truncation toward zero, the behaviour of the Python int() conversion
applied to the progress ratios. -/
def pyInt (q : ℚ) : ℤ :=
  if q < 0 then -(Int.floor (-q)) else Int.floor q

/-- Stored state of a task as read by the status endpoint: its status
string, the optional (current_step, total_steps) pair, and the elapsed
seconds since start for the time-based estimate. -/
structure TaskRecord where
  status : String
  steps : Option (Nat × Nat)
  elapsed : ℚ
  deriving Repr, DecidableEq

/-- Progress computation of get_task_status: 100 when completed, 0 when
failed, otherwise the step ratio truncated and capped at 99 when both step
counters are present and total_steps is positive, 50 when total_steps is 0,
and the truncated 30-second time estimate capped at 99 when counters are
absent. -/
def task_progress (r : TaskRecord) : ℤ :=
  if r.status = "completed" then 100
  else if r.status = "failed" then 0
  else
    match r.steps with
    | some (c, t) =>
        if 0 < t then min (pyInt (((c : ℚ) / (t : ℚ)) * 100)) 99 else 50
    | none => min (pyInt ((r.elapsed / 30) * 100)) 99

/-- Response document of the status endpoint: the fields every poll
receives. -/
structure StatusResponse where
  task_id : String
  status : String
  progress : ℤ
  deriving Repr, DecidableEq

/-- Model of get_task_status over an explicit registry: a known id gets its
stored status with the derived progress, an unknown id gets the well-formed
not_found document with progress 0.  The function is total: no lookup ever
raises. -/
def get_task_status (registry : List (String × TaskRecord)) (id : String) :
    StatusResponse :=
  match registry.lookup id with
  | some r => ⟨id, r.status, task_progress r⟩
  | none => ⟨id, "not_found", 0⟩

/-- Modelled from the spec: the progress formula the spec claims for a
running task with step counters, rounding the percentage rather than
truncating it. -/
def spec_rounded_progress (c t : Nat) : ℤ :=
  min 99 (round ((100 * (c : ℚ)) / (t : ℚ)))

theorem pyInt_natCast_div (c t : Nat) (ht : 0 < t) :
    pyInt (((c : ℚ) / (t : ℚ)) * 100) = ((100 * c / t : Nat) : ℤ) := by
  have hq : ((c : ℚ) / (t : ℚ)) * 100 = ((100 * c : Nat) : ℚ) / ((t : Nat) : ℚ) := by
    push_cast
    ring
  have hnonneg : (0 : ℚ) ≤ ((c : ℚ) / (t : ℚ)) * 100 := by
    positivity
  rw [pyInt, if_neg (by exact not_lt.mpr hnonneg), hq,
    ← Int.natCast_floor_eq_floor (by positivity), Nat.floor_div_eq_div]

/-- C4, counterexample: a running task at step 2 of 3 polls as 66 percent,
while the spec formula min(99, round(100*current/total)) gives 67: the code
truncates the ratio with int(), it does not round. -/
theorem task_progress_truncates_not_rounds :
    task_progress ⟨"running", some (2, 3), 0⟩ = 66 ∧
    spec_rounded_progress 2 3 = 67 ∧ (66 : ℤ) ≠ 67 := by
  refine ⟨?_, ?_, by decide⟩
  · rw [task_progress, if_neg (by decide), if_neg (by decide)]
    show (if 0 < 3 then min (pyInt (((2 : ℚ) / (3 : ℚ)) * 100)) 99 else 50) = 66
    rw [if_pos (by norm_num), pyInt, if_neg (by norm_num)]
    have h66 : Int.floor ((2 : ℚ) / 3 * 100) = 66 := by
      norm_num
    rw [h66]
    decide
  · rw [spec_rounded_progress]
    have h67 : round ((100 * ((2 : ℕ) : ℚ)) / ((3 : ℕ) : ℚ)) = 67 := by
      rw [round_eq]
      norm_num
    rw [h67]
    decide

/-- C4, amended: progress is derived from status exactly as the spec says
except that the running-with-counters case truncates instead of rounding —
it equals min(99, floor(100*current/total)), that is the natural-number
division — and a present counter pair with total_steps = 0 yields the fixed
value 50; the time-based estimate is likewise truncated and capped at 99,
and every non-terminal poll stays at most 99. -/
theorem task_progress_cases (r : TaskRecord) :
    (r.status = "completed" → task_progress r = 100) ∧
    (r.status = "failed" → task_progress r = 0) ∧
    (r.status ≠ "completed" → r.status ≠ "failed" →
      (∀ c t : Nat, r.steps = some (c, t) → 0 < t →
          task_progress r = min ((100 * c / t : Nat) : ℤ) 99) ∧
      (∀ c : Nat, r.steps = some (c, 0) → task_progress r = 50) ∧
      (r.steps = none →
          task_progress r = min (pyInt ((r.elapsed / 30) * 100)) 99) ∧
      task_progress r ≤ 99) := by
  refine ⟨?_, ?_, ?_⟩
  · intro h
    rw [task_progress, if_pos h]
  · intro h
    by_cases hc : r.status = "completed"
    · rw [hc] at h
      exact absurd h (by decide)
    · rw [task_progress, if_neg hc, if_pos h]
  · intro hc hf
    refine ⟨?_, ?_, ?_, ?_⟩
    · intro c t hsteps ht
      rw [task_progress, if_neg hc, if_neg hf, hsteps]
      show (if 0 < t then min (pyInt (((c : ℚ) / (t : ℚ)) * 100)) 99 else 50) =
        min ((100 * c / t : Nat) : ℤ) 99
      rw [if_pos ht, pyInt_natCast_div c t ht]
    · intro c hsteps
      rw [task_progress, if_neg hc, if_neg hf, hsteps]
      show (if 0 < 0 then min (pyInt (((c : ℚ) / ((0 : Nat) : ℚ)) * 100)) 99 else 50) = 50
      rw [if_neg (by norm_num)]
    · intro hsteps
      rw [task_progress, if_neg hc, if_neg hf, hsteps]
    · rw [task_progress, if_neg hc, if_neg hf]
      match hs : r.steps with
      | some (c, t) =>
          show (if 0 < t then min (pyInt (((c : ℚ) / (t : ℚ)) * 100)) 99 else 50) ≤ 99
          by_cases ht : 0 < t
          · rw [if_pos ht]
            exact min_le_right _ _
          · rw [if_neg ht]
            norm_num
      | none => exact min_le_right _ _

/-- C4, witness: the amended case analysis applied to a concrete completed
task and a concrete running task at step 2 of 3. -/
theorem task_progress_cases_witness :
    task_progress ⟨"completed", some (2, 3), 0⟩ = 100 ∧
    task_progress ⟨"running", some (2, 3), 0⟩ = min ((100 * 2 / 3 : Nat) : ℤ) 99 :=
  ⟨(task_progress_cases ⟨"completed", some (2, 3), 0⟩).1 rfl,
   ((task_progress_cases ⟨"running", some (2, 3), 0⟩).2.2 (by decide)
      (by decide)).1 2 3 rfl (by decide)⟩

/-- C5: polling an identifier absent from the registry returns the
well-formed not_found document with progress 0; get_task_status is a total
function, so no poll raises, and every response carries the uniform
task_id/status/progress shape. -/
theorem get_task_status_unknown_id (registry : List (String × TaskRecord))
    (id : String) (h : registry.lookup id = none) :
    get_task_status registry id = ⟨id, "not_found", 0⟩ := by
  rw [get_task_status, h]

/-- C5, witness: polling a never-created id against an empty registry. -/
theorem get_task_status_unknown_id_witness :
    get_task_status [] "benchmark_12345" =
      ⟨"benchmark_12345", "not_found", 0⟩ :=
  get_task_status_unknown_id [] "benchmark_12345" rfl

/-! ## Result comparator (GET /compare and _print_benchmark_summary) -/

/-- The two backends under comparison. -/
inductive Backend where
  | postgresql
  | neo4j
  deriving Repr, DecidableEq

/-- Exchanging the two backends. -/
def Backend.swap : Backend → Backend
  | postgresql => neo4j
  | neo4j => postgresql

/-- Comparison record computed per operation: the backend named faster and
the speedup factor.  A speedup of none models the float infinity produced by
the guard branch taken when the Neo4j average is not positive; under the
positive averages of interest that branch is unreachable. -/
structure ComparisonEntry where
  faster : Backend
  speedup : Option ℚ
  deriving Repr, DecidableEq

/-- Core formula shared by compare_benchmarks and _print_benchmark_summary:
the Postgres-over-Neo4j latency quotient, the faster backend chosen by
strict comparison of the averages (ties go to PostgreSQL), and the factor
expressed as the quotient or its reciprocal so it is relative to the slower
backend. -/
def compare_avgs (pg_avg neo4j_avg : ℚ) : ComparisonEntry :=
  let q : Option ℚ :=
    if 0 < neo4j_avg then some (pg_avg / neo4j_avg) else none
  let faster : Backend :=
    if neo4j_avg < pg_avg then Backend.neo4j else Backend.postgresql
  let factor : Option ℚ :=
    if faster = Backend.neo4j then q else q.map (fun x => 1 / x)
  ⟨faster, factor⟩

/-- Guard of the operation loop in compare_benchmarks: a comparison entry is
emitted only when both stored averages are truthy (non-zero). -/
def compare_operation (pg_avg neo4j_avg : ℚ) : Option ComparisonEntry :=
  if pg_avg ≠ 0 ∧ neo4j_avg ≠ 0 then some (compare_avgs pg_avg neo4j_avg)
  else none

theorem compare_avgs_of_lt (a b : ℚ) (hb : 0 < b) (h : b < a) :
    compare_avgs a b = ⟨Backend.neo4j, some (a / b)⟩ := by
  simp [compare_avgs, h, hb]

theorem compare_avgs_of_ge (a b : ℚ) (hb : 0 < b) (h : a ≤ b) :
    compare_avgs a b = ⟨Backend.postgresql, some (1 / (a / b))⟩ := by
  simp [compare_avgs, not_lt.mpr h, hb]

/-- C7: for positive average latencies the comparator emits an entry whose
speedup factor is at least 1, names as faster the backend whose average is
strictly smaller, and — whenever the two averages differ — swapping the two
backends in the input yields the swapped winner (the same logical backend)
with an identical, reciprocal-consistent factor. -/
theorem compare_operation_spec (a b : ℚ) (ha : 0 < a) (hb : 0 < b) :
    (∃ f : ℚ, (compare_avgs a b).speedup = some f ∧ 1 ≤ f) ∧
    (a < b → (compare_avgs a b).faster = Backend.postgresql) ∧
    (b < a → (compare_avgs a b).faster = Backend.neo4j) ∧
    (a ≠ b →
      (compare_avgs b a).faster = ((compare_avgs a b).faster).swap ∧
      (compare_avgs b a).speedup = (compare_avgs a b).speedup) ∧
    compare_operation a b = some (compare_avgs a b) := by
  have hguard : compare_operation a b = some (compare_avgs a b) := by
    rw [compare_operation, if_pos ⟨ne_of_gt ha, ne_of_gt hb⟩]
  rcases lt_trichotomy a b with hab | hab | hab
  · have h1 := compare_avgs_of_ge a b hb (le_of_lt hab)
    have h2 := compare_avgs_of_lt b a ha hab
    refine ⟨⟨1 / (a / b), ?_, ?_⟩, ?_, ?_, ?_, hguard⟩
    · rw [h1]
    · rw [one_div_div]
      rw [one_le_div ha]
      exact le_of_lt hab
    · intro _
      rw [h1]
    · intro h
      exact absurd h (lt_asymm hab)
    · intro _
      rw [h1, h2]
      refine ⟨rfl, ?_⟩
      show some (b / a) = some (1 / (a / b))
      rw [one_div_div]
  · subst hab
    have h1 := compare_avgs_of_ge a a ha le_rfl
    refine ⟨⟨1 / (a / a), ?_, ?_⟩, ?_, ?_, ?_, hguard⟩
    · rw [h1]
    · rw [div_self (ne_of_gt ha)]
      norm_num
    · intro h
      exact absurd h (lt_irrefl a)
    · intro h
      exact absurd h (lt_irrefl a)
    · intro h
      exact absurd rfl h
  · have h1 := compare_avgs_of_lt a b hb hab
    have h2 := compare_avgs_of_ge b a ha (le_of_lt hab)
    refine ⟨⟨a / b, ?_, ?_⟩, ?_, ?_, ?_, hguard⟩
    · rw [h1]
    · rw [one_le_div hb]
      exact le_of_lt hab
    · intro h
      exact absurd h (lt_asymm hab)
    · intro _
      rw [h1]
    · intro _
      rw [h1, h2]
      refine ⟨rfl, ?_⟩
      show some (1 / (b / a)) = some (a / b)
      rw [one_div_div]

/-- C7, witness: the comparator specification applied at the concrete
positive averages 1 and 2. -/
theorem compare_operation_spec_witness :
    (∃ f : ℚ, (compare_avgs 1 2).speedup = some f ∧ 1 ≤ f) ∧
    ((1 : ℚ) < 2 → (compare_avgs 1 2).faster = Backend.postgresql) ∧
    ((2 : ℚ) < 1 → (compare_avgs 1 2).faster = Backend.neo4j) ∧
    ((1 : ℚ) ≠ 2 →
      (compare_avgs 2 1).faster = ((compare_avgs 1 2).faster).swap ∧
      (compare_avgs 2 1).speedup = (compare_avgs 1 2).speedup) ∧
    compare_operation 1 2 = some (compare_avgs 1 2) :=
  compare_operation_spec 1 2 (by norm_num) (by norm_num)

/-! ## Dual-write follow creation (user_service.follow_user and the
generator helpers)

The relational follow row is committed before the graph MERGE is attempted
and is never rolled back, so the two writes are modelled as successive
updates of an explicit joint state.  Backend availability is an oracle
pair: pg_ok stands for the relational phase completing without an
exception, neo_ok for the graph driver call not raising. -/

/-- Joint state of the two backends relevant to follow creation: user rows
and follow rows on the relational side, user nodes and FOLLOWS
relationships on the graph side. -/
structure Stores where
  pgUsers : List Nat
  pgFollows : List (Nat × Nat)
  neoUsers : List Nat
  neoFollows : List (Nat × Nat)
  deriving Repr, DecidableEq

/-- Idempotent edge insertion: the relational path first checks whether the
row exists, and the Cypher MERGE has the same create-if-absent semantics. -/
def insertEdge (e : Nat × Nat) (l : List (Nat × Nat)) : List (Nat × Nat) :=
  if e ∈ l then l else e :: l

/-- Model of user_service.follow_user: both users are looked up in the
relational store; the relational follow row is inserted and committed; only
then is the graph MERGE attempted, which returns a row (success) exactly
when both nodes exist and the driver call does not raise.  Every failure
path returns false; once the relational phase has committed, its row stays
committed whatever the graph side does. -/
def follow_user (st : Stores) (pg_ok neo_ok : Bool)
    (user_id target_user_id : Nat) : Bool × Stores :=
  if user_id ∈ st.pgUsers then
    if target_user_id ∈ st.pgUsers then
      if pg_ok then
        if neo_ok ∧ user_id ∈ st.neoUsers ∧ target_user_id ∈ st.neoUsers then
          (true,
           { st with
              pgFollows := insertEdge (user_id, target_user_id) st.pgFollows,
              neoFollows := insertEdge (user_id, target_user_id) st.neoFollows })
        else
          (false,
           { st with
              pgFollows := insertEdge (user_id, target_user_id) st.pgFollows })
      else (false, st)
    else (false, st)
  else (false, st)

/-- Model of DataGenerator._create_follow: identical identifiers are
rejected before any backend write; otherwise the dual write runs. -/
def _create_follow (st : Stores) (pg_ok neo_ok : Bool)
    (follower_id followed_id : Nat) : Bool × Stores :=
  if follower_id = followed_id then (false, st)
  else follow_user st pg_ok neo_ok follower_id followed_id

theorem mem_insertEdge_self (e : Nat × Nat) (l : List (Nat × Nat)) :
    e ∈ insertEdge e l := by
  rw [insertEdge]
  split_ifs with h
  · exact h
  · exact List.mem_cons_self _ _

/-- C3, counterexample: with users 1 and 2 present relationally but node 2
missing from the graph store, the follow attempt 1 → 2 reports failure, yet
the relational follow row has been committed and remains — a single-backend
failure does leave a committed edge in one backend. -/
theorem follow_user_partial_write_remains :
    (follow_user ⟨[1, 2], [], [1], []⟩ true true 1 2).1 = false ∧
    (1, 2) ∈ (follow_user ⟨[1, 2], [], [1], []⟩ true true 1 2).2.pgFollows ∧
    (1, 2) ∉ (follow_user ⟨[1, 2], [], [1], []⟩ true true 1 2).2.neoFollows := by
  decide

/-- C3, amended: the counting half of the claim holds — an attempt reports
success only when both backends accept the edge, and any graph-side failure
makes the attempt report failure without touching the graph store — but the
relational write is not rolled back: when the relational phase has
committed and the graph side then fails, the attempt reports failure while
the committed relational row remains. -/
theorem follow_user_dual_write (st : Stores) (pg_ok neo_ok : Bool)
    (u t : Nat) :
    ((follow_user st pg_ok neo_ok u t).1 = true →
      (u, t) ∈ (follow_user st pg_ok neo_ok u t).2.pgFollows ∧
      (u, t) ∈ (follow_user st pg_ok neo_ok u t).2.neoFollows) ∧
    (neo_ok = false →
      (follow_user st pg_ok neo_ok u t).1 = false ∧
      (follow_user st pg_ok neo_ok u t).2.neoFollows = st.neoFollows) ∧
    (u ∈ st.pgUsers → t ∈ st.pgUsers → pg_ok = true → neo_ok = false →
      (follow_user st pg_ok neo_ok u t).1 = false ∧
      (u, t) ∈ (follow_user st pg_ok neo_ok u t).2.pgFollows) := by
  refine ⟨?_, ?_, ?_⟩
  · intro h
    rw [follow_user] at h ⊢
    split_ifs at h ⊢ with h1 h2 h3 h4
    exact ⟨mem_insertEdge_self _ _, mem_insertEdge_self _ _⟩
  · intro hneo
    subst hneo
    rw [follow_user]
    split_ifs with h1 h2 h3 h4
    · simp at h4
    all_goals exact ⟨rfl, rfl⟩
  · intro hu ht hpg hneo
    subst hpg
    subst hneo
    rw [follow_user, if_pos hu, if_pos ht, if_pos rfl, if_neg (by simp)]
    exact ⟨rfl, mem_insertEdge_self _ _⟩

/-- C3, witness: the amended statement applied at two concrete attempts,
one where the graph driver fails after the relational commit and one where
both backends accept. -/
theorem follow_user_dual_write_witness :
    ((follow_user ⟨[1, 2], [], [1, 2], []⟩ true false 1 2).1 = false ∧
      (1, 2) ∈ (follow_user ⟨[1, 2], [], [1, 2], []⟩ true false 1 2).2.pgFollows) ∧
    ((1, 2) ∈ (follow_user ⟨[1, 2], [], [1, 2], []⟩ true true 1 2).2.pgFollows ∧
      (1, 2) ∈ (follow_user ⟨[1, 2], [], [1, 2], []⟩ true true 1 2).2.neoFollows) :=
  ⟨(follow_user_dual_write ⟨[1, 2], [], [1, 2], []⟩ true false 1 2).2.2
      (by decide) (by decide) rfl rfl,
   (follow_user_dual_write ⟨[1, 2], [], [1, 2], []⟩ true true 1 2).1 (by decide)⟩

/-! ## Follow pair planning (DataGenerator.generate_follows)

The random draws of generate_follows are abstracted: the sampler stands for
random.sample and is constrained only by the property the library
guarantees, that every sampled element comes from the input population, and
the per-user fanout is an arbitrary function of the user. -/

/-- Candidate pool for one source user: every known user id except the user
itself. -/
def potential_follows (user_ids : List Nat) (user_id : Nat) : List Nat :=
  user_ids.filter (fun u => u ≠ user_id)

/-- Pairs planned for one source user in generate_follows: the pool is
truncated to at most 100 candidates by sampling, then min(num_follows,
pool size) targets are sampled from it, each yielding the pair
(user_id, target). -/
def follows_for_user (sample : List Nat → Nat → List Nat)
    (num_follows : Nat) (user_ids : List Nat) (user_id : Nat) :
    List (Nat × Nat) :=
  let pool := potential_follows user_ids user_id
  let pool2 := if 100 < pool.length then sample pool 100 else pool
  if pool2 ≠ [] ∧ 0 < num_follows then
    (sample pool2 (min num_follows pool2.length)).map (fun f => (user_id, f))
  else []

/-- All follow pairs planned by one batch of generate_follows: every user in
the batch contributes its planned pairs. -/
def generate_follows_pairs (sample : List Nat → Nat → List Nat)
    (num_follows_of : Nat → Nat) (user_ids : List Nat) : List (Nat × Nat) :=
  user_ids.flatMap (fun u => follows_for_user sample (num_follows_of u) user_ids u)

/-- C8: no planned follow pair is a self-follow — the sampling pool
excludes the source user, so whenever the sampler only returns elements of
its input population every generated pair has distinct endpoints — and
_create_follow rejects an attempt with equal identifiers before any backend
write, returning failure with both stores untouched. -/
theorem generate_follows_no_self (sample : List Nat → Nat → List Nat)
    (hs : ∀ l n x, x ∈ sample l n → x ∈ l)
    (num_follows_of : Nat → Nat) (user_ids : List Nat) :
    (∀ p ∈ generate_follows_pairs sample num_follows_of user_ids,
      p.1 ≠ p.2) ∧
    (∀ (st : Stores) (pg_ok neo_ok : Bool) (u : Nat),
      _create_follow st pg_ok neo_ok u u = (false, st)) := by
  constructor
  · intro p hp
    rw [generate_follows_pairs, List.mem_flatMap] at hp
    obtain ⟨u, _, hp⟩ := hp
    rw [follows_for_user] at hp
    by_cases hguard :
        (if 100 < (potential_follows user_ids u).length then
          sample (potential_follows user_ids u) 100
         else potential_follows user_ids u) ≠ [] ∧
        0 < num_follows_of u
    · rw [if_pos hguard, List.mem_map] at hp
      obtain ⟨f, hf, hpf⟩ := hp
      have hf2 := hs _ _ f hf
      have hpool : f ∈ potential_follows user_ids u := by
        by_cases hlen : 100 < (potential_follows user_ids u).length
        · rw [if_pos hlen] at hf2
          exact hs _ _ f hf2
        · rw [if_neg hlen] at hf2
          exact hf2
      have hne : f ≠ u := by
        rw [potential_follows, List.mem_filter] at hpool
        simpa using hpool.2
      rw [← hpf]
      exact fun hcontra => hne hcontra.symm
    · rw [if_neg hguard] at hp
      exact absurd hp (List.not_mem_nil p)
  · intro st pg_ok neo_ok u
    rw [_create_follow, if_pos rfl]

/-- C8, witness: the planning invariant evaluated at a concrete prefix
sampler and three users, and the self-follow rejection at a concrete
state. -/
theorem generate_follows_no_self_witness :
    ((generate_follows_pairs (fun l n => l.take n) (fun _ => 2)
        [1, 2, 3]).all (fun p => p.1 != p.2)) = true ∧
    _create_follow ⟨[1], [], [1], []⟩ true true 1 1 =
      (false, ⟨[1], [], [1], []⟩) := by
  constructor
  · rw [List.all_eq_true]
    intro p hp
    have h := (generate_follows_no_self (fun l n => l.take n)
      (fun l n x hx => List.take_subset n l hx) (fun _ => 2) [1, 2, 3]).1 p hp
    simpa using h
  · exact (generate_follows_no_self (fun l n => l.take n)
      (fun l n x hx => List.take_subset n l hx) (fun _ => 2) [1, 2, 3]).2
      ⟨[1], [], [1], []⟩ true true 1

/-! ## Virality scoring (comparative_service product virality) -/

/-- Viral score computed by the SELECT expression of
pg_get_product_virality: COUNT(DISTINCT u.id) * 1.0 / p.price with no guard
on the price — SQL raises a division-by-zero error when the price is 0,
modelled as none, and divides as-is otherwise. -/
def pg_viral_score (distinct_buyers : Nat) (price : ℚ) : Option ℚ :=
  if price = 0 then none
  else some ((distinct_buyers : ℚ) * 1 / price)

/-- Viral score computed by neo4j_get_product_virality: the Cypher CASE
guards the division, returning purchase_count * 1.0 / price when the price
is positive and 0 otherwise. -/
def neo4j_viral_score (distinct_buyers : Nat) (price : ℚ) : ℚ :=
  if 0 < price then (distinct_buyers : ℚ) * 1 / price else 0

/-- Modelled from the spec: the scoring formula the spec states for both
implementations, distinct_buyers / price when price > 0 and 0 otherwise. -/
def spec_viral_score (distinct_buyers : Nat) (price : ℚ) : ℚ :=
  if 0 < price then (distinct_buyers : ℚ) / price else 0

/-- C9, counterexample: at price 0 with 5 distinct buyers the relational
expression divides by zero (an error, none) while the spec formula — and
the graph implementation — give 0, so the two implementations do not both
compute the spec formula on every input. -/
theorem pg_viral_score_zero_price_diverges :
    pg_viral_score 5 0 = none ∧ neo4j_viral_score 5 0 = 0 ∧
    spec_viral_score 5 0 = 0 ∧
    pg_viral_score 5 0 ≠ some (spec_viral_score 5 0) := by
  refine ⟨rfl, rfl, rfl, ?_⟩
  rw [pg_viral_score, if_pos rfl]
  exact fun h => Option.noConfusion h

/-- C9, amended: for every strictly positive price both implementations
compute exactly the spec formula distinct_buyers / price with exact
(non-truncating) division, and they agree; the otherwise-0 branch holds
only for the graph implementation, the relational query having no price
guard (price 0 is a database error and a negative price yields a negative
score). -/
theorem viral_score_positive_price_agree (b : Nat) (p : ℚ) (hp : 0 < p) :
    pg_viral_score b p = some (spec_viral_score b p) ∧
    neo4j_viral_score b p = spec_viral_score b p ∧
    spec_viral_score b p = (b : ℚ) / p ∧
    (∀ q : ℚ, q ≤ 0 → neo4j_viral_score b q = 0) := by
  refine ⟨?_, ?_, ?_, ?_⟩
  · rw [pg_viral_score, if_neg (ne_of_gt hp), spec_viral_score, if_pos hp,
      mul_one]
  · rw [neo4j_viral_score, if_pos hp, spec_viral_score, if_pos hp, mul_one]
  · rw [spec_viral_score, if_pos hp]
  · intro q hq
    rw [neo4j_viral_score, if_neg (not_lt.mpr hq)]

/-- C9, witness: the agreement applied at 5 distinct buyers and the
concrete positive price 4. -/
theorem viral_score_positive_price_agree_witness :
    pg_viral_score 5 4 = some (spec_viral_score 5 4) ∧
    neo4j_viral_score 5 4 = spec_viral_score 5 4 ∧
    spec_viral_score 5 4 = (5 : ℚ) / 4 ∧
    (∀ q : ℚ, q ≤ 0 → neo4j_viral_score 5 q = 0) :=
  viral_score_positive_price_agree 5 4 (by norm_num)
